import Mathlib

/-!
Verification development for the blockless-avs-tools aggregator
(`aggregator/aggregator.go`): a shallow embedding of the task lifecycle and
signature-aggregation orchestrator, with theorems about its behaviour.

Go maps are modelled as association lists with Go semantics: insertion
replaces an existing binding in place, and a read in value position yields
the zero value of the element type when the key is absent.  Go channels feed
the dispatch loop; we model one pass of the loop as a step function on an
incoming event, and a whole run as a fold over a finite list of events.
Durations are in nanoseconds, as Go `time.Duration` is.
-/

namespace BlocklessAvs

/-- Go map insertion: `m[k] = v` replaces an existing binding for `k`
in place, otherwise appends a fresh one. -/
def goInsert {α β : Type} [DecidableEq α] (m : List (α × β)) (k : α) (v : β) :
    List (α × β) :=
  match m with
  | [] => [(k, v)]
  | (k2, v2) :: rest =>
      if k2 = k then (k, v) :: rest else (k2, v2) :: goInsert rest k v

/-- Go map lookup in comma-ok position: `v, ok := m[k]`. -/
def goLookup {α β : Type} [DecidableEq α] (m : List (α × β)) (k : α) :
    Option β :=
  match m with
  | [] => none
  | (k2, v2) :: rest => if k2 = k then some v2 else goLookup rest k

/-- Go map read in value position: `m[k]` yields the zero value of the
element type when the key is absent (and never panics). -/
def goGet {α β : Type} [DecidableEq α] (m : List (α × β)) (k : α)
    (zero : β) : β :=
  (goLookup m k).getD zero

/-- `types.TaskIndex` is `uint32` in Go; indices in the claims are small,
so we model it as `Nat`. -/
abbrev TaskIndex := Nat

/-- `sdktypes.TaskResponseDigest` is a 32-byte hash; modelled abstractly. -/
abbrev Digest := Nat

/-- `IIncredibleSquaringTaskManagerTask` from the contract bindings: the
fields read by the aggregator are `TaskCreatedBlock`, `QuorumNumbers`
(a byte slice) and `QuorumThresholdPercentage` (a single `uint32`). -/
structure Task where
  numberToBeSquared : Int
  taskCreatedBlock : Nat
  quorumNumbers : List Nat
  quorumThresholdPercentage : Nat
deriving Repr, DecidableEq, Inhabited

/-- Go zero value of `Task`. -/
def zeroTask : Task :=
  { numberToBeSquared := 0
    taskCreatedBlock := 0
    quorumNumbers := []
    quorumThresholdPercentage := 0 }

/-- `IIncredibleSquaringTaskManagerTaskResponse` from the bindings. -/
structure TaskResponse where
  referenceTaskIndex : TaskIndex
  numberSquared : Int
deriving Repr, DecidableEq, Inhabited

/-- Go zero value of `TaskResponse`. -/
def zeroTaskResponse : TaskResponse :=
  { referenceTaskIndex := 0, numberSquared := 0 }

/-- An eigensdk BN254 G1 point, kept abstract as its two coordinates. -/
structure G1Point where
  x : Int
  y : Int
deriving Repr, DecidableEq, Inhabited

/-- An eigensdk BN254 G2 point, kept abstract as its four coordinates. -/
structure G2Point where
  x0 : Int
  x1 : Int
  y0 : Int
  y1 : Int
deriving Repr, DecidableEq, Inhabited

/-- The contract-binding representation `cstaskmanager.BN254G1Point`. -/
structure BN254G1Point where
  x : Int
  y : Int
deriving Repr, DecidableEq, Inhabited

/-- The contract-binding representation `cstaskmanager.BN254G2Point`. -/
structure BN254G2Point where
  x0 : Int
  x1 : Int
  y0 : Int
  y1 : Int
deriving Repr, DecidableEq, Inhabited

/-- Modelled from the spec: `core.ConvertToBN254G1Point` lives in the
repository's `core` package, outside the provided sources; the spec treats
curve material as opaque payload, so the conversion carries the coordinates
over unchanged into the contract-binding type. -/
def ConvertToBN254G1Point (p : G1Point) : BN254G1Point :=
  { x := p.x, y := p.y }

/-- Modelled from the spec: `core.ConvertToBN254G2Point`, as for the G1
conversion. -/
def ConvertToBN254G2Point (p : G2Point) : BN254G2Point :=
  { x0 := p.x0, x1 := p.x1, y0 := p.y0, y1 := p.y1 }

/-- `IBLSSignatureCheckerNonSignerStakesAndSignature`: the proof material
assembled by `sendAggregatedResponseToContract`. -/
structure NonSignerStakesAndSignature where
  nonSignerPubkeys : List BN254G1Point
  quorumApks : List BN254G1Point
  apkG2 : BN254G2Point
  sigma : BN254G1Point
  nonSignerQuorumBitmapIndices : List Nat
  quorumApkIndices : List Nat
  totalStakeIndices : List Nat
  nonSignerStakeIndices : List (List Nat)
deriving Repr, DecidableEq, Inhabited

/-- Go errors relevant to the orchestrator, as an enumerated type (the
orchestrator only tests errors against nil and logs them). -/
inductive GoError where
  | taskAlreadyTracked
  | lengthMismatch
  | taskExpired
  | submitFailed
  | transportFailure
deriving Repr, DecidableEq, Inhabited

/-- One nanosecond, the unit of Go `time.Duration`. -/
def nanosecond : Nat := 1

/-- Go `time.Second` in nanoseconds. -/
def second : Nat := 1000000000

/-- `taskChallengeWindowBlock = 100`: number of blocks after which a task
is considered expired (hardcoded to match the contracts). -/
def taskChallengeWindowBlock : Nat := 100

/-- `blockTimeSeconds = 12 * time.Second`. -/
def blockTimeSeconds : Nat := 12 * second

/-- A websocket subscription handle: `Unsubscribe` and an error channel in
Go; we record the handle identity and the channel the subscription feeds. -/
structure Subscription where
  handle : Nat
  target : Nat
deriving Repr, DecidableEq, Inhabited

/-- The mutable fields of `Aggregator` that the dispatch loop and the
submission pipeline touch, together with the two fixed event channels and
the subscription bookkeeping.  `blsTracked` is the set of task indices
currently tracked by the external BLS aggregation service (needed to model
its duplicate-index error). -/
structure AggState where
  tasks : List (TaskIndex × Task)
  taskResponses : List (TaskIndex × List (Digest × TaskResponse))
  blsTracked : List TaskIndex
  newTaskCreatedChan : Nat
  newTaskRespondedChan : Nat
  subTaskCreated : Subscription
  subTaskResponded : Subscription
  nextSubHandle : Nat
deriving Repr, DecidableEq, Inhabited

/-- `ContractIncredibleSquaringTaskManagerNewTaskCreated`: the task-created
event log, carrying the index and the task payload. -/
structure NewTaskCreatedLog where
  taskIndex : TaskIndex
  task : Task
deriving Repr, DecidableEq, Inhabited

/-- `ContractIncredibleSquaringTaskManagerTaskResponded`: the
task-responded event log; the aggregator only logs it, so its payload is
kept abstract. -/
structure TaskRespondedLog where
  taskIndex : TaskIndex
  taskResponseDigest : Digest
deriving Repr, DecidableEq, Inhabited

/-- The observable call made to
`blsAggregationService.InitializeNewTask(taskIndex, taskCreatedBlock,
quorumNums, quorumThresholdPercentages, taskTimeToExpiry)`. -/
structure InitTaskCall where
  taskIndex : TaskIndex
  taskCreatedBlock : Nat
  quorumNumbers : List Nat
  quorumThresholdPercentages : List Nat
  timeToExpiry : Nat
deriving Repr, DecidableEq, Inhabited

/-- Modelled from the spec: the external BLS aggregation service's
`InitializeNewTask` (eigensdk, outside this repository) starts tracking a
task and fails if the index is already tracked or if the quorum-number and
threshold lists have mismatched lengths. -/
def initNewTask (tracked : List TaskIndex) (call : InitTaskCall) :
    Option GoError × List TaskIndex :=
  if call.taskIndex ∈ tracked then
    (some GoError.taskAlreadyTracked, tracked)
  else if call.quorumNumbers.length ≠ call.quorumThresholdPercentages.length then
    (some GoError.lengthMismatch, tracked)
  else
    (none, call.taskIndex :: tracked)

/-- `Aggregator.processTaskCreatedLog`: stores the task in `agg.tasks`
under exclusive lock, replicates the task's scalar
`QuorumThresholdPercentage` once per quorum number, converts the quorum
numbers in order, computes the wall-clock time-to-expiry, and calls
`InitializeNewTask`; the service's error (if any) is returned to the
caller.  Returns the new state, the `InitializeNewTask` call made, and the
returned error. -/
def processTaskCreatedLog (agg : AggState) (taskLog : NewTaskCreatedLog) :
    AggState × InitTaskCall × Option GoError :=
  let tasks2 := goInsert agg.tasks taskLog.taskIndex taskLog.task
  let quorumThresholdPercentages :=
    taskLog.task.quorumNumbers.map (fun _ => taskLog.task.quorumThresholdPercentage)
  let taskTimeToExpiry := taskChallengeWindowBlock * blockTimeSeconds
  let quorumNums := taskLog.task.quorumNumbers.map (fun quorumNum => quorumNum)
  let call : InitTaskCall :=
    { taskIndex := taskLog.taskIndex
      taskCreatedBlock := taskLog.task.taskCreatedBlock
      quorumNumbers := quorumNums
      quorumThresholdPercentages := quorumThresholdPercentages
      timeToExpiry := taskTimeToExpiry }
  let initRes := initNewTask agg.blsTracked call
  ({ agg with tasks := tasks2, blsTracked := initRes.2 }, call, initRes.1)

/-- `BlsAggregationServiceResponse`: the terminal per-task result delivered
on the aggregation service's completion channel.  `signersAggSigG1` is the
`G1Point` projection of the signature, as read by the aggregator. -/
structure BlsAggServiceResp where
  err : Option GoError
  taskIndex : TaskIndex
  taskResponseDigest : Digest
  nonSignersPubkeysG1 : List G1Point
  quorumApksG1 : List G1Point
  signersApkG2 : G2Point
  signersAggSigG1 : G1Point
  nonSignerQuorumBitmapIndices : List Nat
  quorumApkIndices : List Nat
  totalStakeIndices : List Nat
  nonSignerStakeIndices : List (List Nat)
deriving Repr, DecidableEq, Inhabited

/-- The observable call made to
`avsWriter.SendAggregatedResponse(ctx, task, taskResponse,
nonSignerStakesAndSignature)`. -/
structure SubmitCall where
  task : Task
  taskResponse : TaskResponse
  proofMaterial : NonSignerStakesAndSignature
deriving Repr, DecidableEq, Inhabited

/-- The external chain writer: given a submission call, returns the error
(if any) of the on-chain transaction attempt. -/
abbrev SubmitWriter := SubmitCall → Option GoError

/-- Observable side effects of the orchestrator, in program order. -/
inductive Action where
  | logInfo
  | logError
  | unsubscribe (handle : Nat)
  | subscribe (target : Nat)
  | submitAggregate (call : SubmitCall)
deriving Repr, DecidableEq, Inhabited

/-- Count of `SendAggregatedResponse` attempts among a list of actions. -/
def countSubmits : List Action → Nat
  | [] => 0
  | Action.submitAggregate _ :: rest => countSubmits rest + 1
  | _ :: rest => countSubmits rest

/-- The `IBLSSignatureCheckerNonSignerStakesAndSignature` struct literal
built inside `sendAggregatedResponseToContract` from the aggregation
result, after converting the non-signer pubkeys and quorum apks
point-by-point. -/
def assembleProofMaterial (resp : BlsAggServiceResp) :
    NonSignerStakesAndSignature :=
  { nonSignerPubkeys := resp.nonSignersPubkeysG1.map ConvertToBN254G1Point
    quorumApks := resp.quorumApksG1.map ConvertToBN254G1Point
    apkG2 := ConvertToBN254G2Point resp.signersApkG2
    sigma := ConvertToBN254G1Point resp.signersAggSigG1
    nonSignerQuorumBitmapIndices := resp.nonSignerQuorumBitmapIndices
    quorumApkIndices := resp.quorumApkIndices
    totalStakeIndices := resp.totalStakeIndices
    nonSignerStakeIndices := resp.nonSignerStakeIndices }

/-- The `SendAggregatedResponse` call built by
`sendAggregatedResponseToContract`: the task read from `agg.tasks` and the
response read from `agg.taskResponses` in Go value position (zero values
when absent), plus the assembled proof material. -/
def submittedCall (agg : AggState) (resp : BlsAggServiceResp) : SubmitCall :=
  { task := goGet agg.tasks resp.taskIndex zeroTask
    taskResponse :=
      goGet (goGet agg.taskResponses resp.taskIndex []) resp.taskResponseDigest
        zeroTaskResponse
    proofMaterial := assembleProofMaterial resp }

/-- `Aggregator.sendAggregatedResponseToContract`: if the aggregation
result carries an error, it is logged and the process panics — we return
the panic value and make no submission.  Otherwise the proof material is
assembled from the result, the task and the response are read from the two
registry maps in value position (Go zero values when absent, no check is
performed), exactly one `SendAggregatedResponse` call is made, and a
submission error is only logged.  The function never mutates the
aggregator state, so only the actions and the possible panic are
returned. -/
def sendAggregatedResponseToContract (w : SubmitWriter) (agg : AggState)
    (resp : BlsAggServiceResp) : List Action × Option GoError :=
  match resp.err with
  | some e => ([Action.logError], some e)
  | none =>
    let task := goGet agg.tasks resp.taskIndex zeroTask
    let taskResponse :=
      goGet (goGet agg.taskResponses resp.taskIndex []) resp.taskResponseDigest
        zeroTaskResponse
    let call : SubmitCall :=
      { task := task
        taskResponse := taskResponse
        proofMaterial := assembleProofMaterial resp }
    match w call with
    | some _ => ([Action.logInfo, Action.submitAggregate call, Action.logError], none)
    | none => ([Action.logInfo, Action.submitAggregate call], none)

/-- The five event classes multiplexed by the `select` in
`Aggregator.Start`. -/
inductive LoopEvent where
  | cancel
  | subTaskCreatedErr (e : GoError)
  | newTaskCreated (taskLog : NewTaskCreatedLog)
  | subTaskRespondedErr (e : GoError)
  | taskResponded (taskLog : TaskRespondedLog)
  | blsResp (resp : BlsAggServiceResp)
deriving Repr, DecidableEq, Inhabited

/-- How one pass of the dispatch loop ends: keep looping, return `nil`
from `Start`, or abort the process by panicking. -/
inductive LoopOutcome where
  | running
  | returnedNil
  | panicked (e : GoError)
deriving Repr, DecidableEq, Inhabited

/-- `avsSubscriber.SubscribeToNewTasks` / `SubscribeToTaskResponses`:
creates a fresh subscription handle feeding the given channel. -/
def subscribeTo (agg : AggState) (chan : Nat) : Subscription × Nat :=
  ({ handle := agg.nextSubHandle, target := chan }, agg.nextSubHandle + 1)

/-- One iteration of the `for { select { ... } }` loop in
`Aggregator.Start`, dispatching on the event received. -/
def loopStep (w : SubmitWriter) (agg : AggState) (ev : LoopEvent) :
    List Action × AggState × LoopOutcome :=
  match ev with
  | LoopEvent.cancel => ([], agg, LoopOutcome.returnedNil)
  | LoopEvent.subTaskCreatedErr _ =>
      let subRes := subscribeTo agg agg.newTaskCreatedChan
      ([Action.logError, Action.unsubscribe agg.subTaskCreated.handle,
        Action.subscribe agg.newTaskCreatedChan],
       { agg with subTaskCreated := subRes.1, nextSubHandle := subRes.2 },
       LoopOutcome.running)
  | LoopEvent.newTaskCreated taskLog =>
      let res := processTaskCreatedLog agg taskLog
      match res.2.2 with
      | some _ => ([Action.logInfo, Action.logError], res.1, LoopOutcome.running)
      | none => ([Action.logInfo], res.1, LoopOutcome.running)
  | LoopEvent.subTaskRespondedErr _ =>
      let subRes := subscribeTo agg agg.newTaskRespondedChan
      ([Action.logError, Action.unsubscribe agg.subTaskResponded.handle,
        Action.subscribe agg.newTaskRespondedChan],
       { agg with subTaskResponded := subRes.1, nextSubHandle := subRes.2 },
       LoopOutcome.running)
  | LoopEvent.taskResponded _ => ([Action.logInfo], agg, LoopOutcome.running)
  | LoopEvent.blsResp resp =>
      let sendRes := sendAggregatedResponseToContract w agg resp
      match sendRes.2 with
      | some e =>
          (Action.logInfo :: sendRes.1, agg, LoopOutcome.panicked e)
      | none => (Action.logInfo :: sendRes.1, agg, LoopOutcome.running)

/-- A whole run of the dispatch loop over a finite list of incoming
events: the loop consumes events until it returns or panics; a panic or a
return discards the remaining events. -/
def runLoop (w : SubmitWriter) (agg : AggState) (evs : List LoopEvent) :
    List Action × AggState × LoopOutcome :=
  match evs with
  | [] => ([], agg, LoopOutcome.running)
  | ev :: rest =>
    let step := loopStep w agg ev
    match step.2.2 with
    | LoopOutcome.running =>
        let tail := runLoop w step.2.1 rest
        (step.1 ++ tail.1, tail.2)
    | out => (step.1, step.2.1, out)

/-- A fresh aggregator state as produced by `NewAggregator`: empty maps,
the two event channels, and the two initial subscriptions made at the top
of `Start`. -/
def agg0 : AggState :=
  { tasks := []
    taskResponses := []
    blsTracked := []
    newTaskCreatedChan := 0
    newTaskRespondedChan := 1
    subTaskCreated := { handle := 0, target := 0 }
    subTaskResponded := { handle := 1, target := 1 }
    nextSubHandle := 2 }

/-- The state `agg0` after the BLS aggregation service has started
tracking task index 5. -/
def aggTracked5 : AggState :=
  { agg0 with blsTracked := [5] }

/-- A chain writer whose submissions succeed. -/
def w0 : SubmitWriter := fun _ => none

/-- A chain writer whose submissions fail. -/
def wFail : SubmitWriter := fun _ => some GoError.submitFailed

/-- The concrete task of spec §8: quorum numbers `[0, 1]`, scalar quorum
threshold percentage `67`, created at block 1000. -/
def taskA : Task :=
  { numberToBeSquared := 2
    taskCreatedBlock := 1000
    quorumNumbers := [0, 1]
    quorumThresholdPercentage := 67 }

/-- A second, different task payload for the same index, to exercise the
duplicate-event path. -/
def taskB : Task :=
  { numberToBeSquared := 3
    taskCreatedBlock := 1001
    quorumNumbers := [0]
    quorumThresholdPercentage := 50 }

/-- A successful aggregation completion for task index 0, digest 0. -/
def respOk : BlsAggServiceResp :=
  { err := none
    taskIndex := 0
    taskResponseDigest := 0
    nonSignersPubkeysG1 := []
    quorumApksG1 := []
    signersApkG2 := { x0 := 0, x1 := 0, y0 := 0, y1 := 0 }
    signersAggSigG1 := { x := 0, y := 0 }
    nonSignerQuorumBitmapIndices := []
    quorumApkIndices := []
    totalStakeIndices := []
    nonSignerStakeIndices := [] }

/-- An aggregation completion carrying an error: the task expired with no
quorum reached. -/
def respErr : BlsAggServiceResp :=
  { respOk with err := some GoError.taskExpired }

/-- Inserting into a Go map and reading the same key back yields the
inserted value. -/
theorem goLookup_goInsert_self {α β : Type} [DecidableEq α]
    (m : List (α × β)) (k : α) (v : β) :
    goLookup (goInsert m k v) k = some v := by
  induction m with
  | nil => simp [goInsert, goLookup]
  | cons hd tl ih =>
    obtain ⟨k2, v2⟩ := hd
    by_cases h : k2 = k
    · simp [goInsert, goLookup, h]
    · simp [goInsert, goLookup, h, ih]

/-- Mapping a constant function yields a replicated list. -/
theorem map_const_replicate {α β : Type} (l : List α) (b : β) :
    l.map (fun _ => b) = List.replicate l.length b := by
  induction l with
  | nil => rfl
  | cons hd tl ih => simp [List.replicate, ih]

/-- Only the cancellation event can make one pass of the dispatch loop
return from `Start`. -/
theorem loopStep_returnedNil_cancel (w : SubmitWriter) (agg : AggState)
    (ev : LoopEvent)
    (h : (loopStep w agg ev).2.2 = LoopOutcome.returnedNil) :
    ev = LoopEvent.cancel := by
  cases ev with
  | cancel => rfl
  | subTaskCreatedErr e => simp [loopStep] at h
  | newTaskCreated taskLog =>
      rcases hE : (processTaskCreatedLog agg taskLog).2.2 with _ | e <;>
        simp [loopStep, hE] at h
  | subTaskRespondedErr e => simp [loopStep] at h
  | taskResponded taskLog => simp [loopStep] at h
  | blsResp resp =>
      rcases hE : (sendAggregatedResponseToContract w agg resp).2 with _ | e <;>
        simp [loopStep, hE] at h

/-- If a whole run of the dispatch loop returned from `Start`, some event
in the run was the cancellation event. -/
theorem runLoop_returnedNil_mem (w : SubmitWriter) (evs : List LoopEvent) :
    ∀ agg : AggState,
      (runLoop w agg evs).2.2 = LoopOutcome.returnedNil →
      LoopEvent.cancel ∈ evs := by
  induction evs with
  | nil => intro agg h; simp [runLoop] at h
  | cons ev rest ih =>
    intro agg h
    rcases hS : (loopStep w agg ev).2.2 with _ | _ | e
    · simp only [runLoop, hS] at h
      exact List.mem_cons_of_mem ev (ih (loopStep w agg ev).2.1 h)
    · rw [loopStep_returnedNil_cancel w agg ev hS]
      exact List.mem_cons_self LoopEvent.cancel rest
    · simp only [runLoop, hS] at h
      exact LoopOutcome.noConfusion h

/-- Processing a task-created event always leaves the dispatch loop
running. -/
theorem loopStep_newTaskCreated_running (w : SubmitWriter) (agg : AggState)
    (taskLog : NewTaskCreatedLog) :
    (loopStep w agg (LoopEvent.newTaskCreated taskLog)).2.2 =
      LoopOutcome.running := by
  rcases hE : (processTaskCreatedLog agg taskLog).2.2 with _ | e <;>
    simp [loopStep, hE]

/-- If `InitializeNewTask` succeeded, the service now tracks the new index
in front of the previously tracked ones. -/
theorem initNewTask_none_tracked (tracked : List TaskIndex)
    (call : InitTaskCall) (h : (initNewTask tracked call).1 = none) :
    (initNewTask tracked call).2 = call.taskIndex :: tracked := by
  by_cases h1 : call.taskIndex ∈ tracked
  · simp [initNewTask, h1] at h
  · by_cases h2 : call.quorumNumbers.length =
        call.quorumThresholdPercentages.length
    · simp [initNewTask, h1, h2]
    · simp [initNewTask, h1, h2] at h

/-- `InitializeNewTask` on an already-tracked index reports the
duplicate. -/
theorem initNewTask_mem (tracked : List TaskIndex) (call : InitTaskCall)
    (h : call.taskIndex ∈ tracked) :
    (initNewTask tracked call).1 = some GoError.taskAlreadyTracked := by
  simp [initNewTask, h]

/-- Claim C1, counterexample: processing a second task-created event for
index 5 with a different payload makes the registry return the duplicate
payload, not the original one — the unconditional map write in
`processTaskCreatedLog` overwrites. -/
theorem c1_duplicate_overwrites_cex :
    goLookup (processTaskCreatedLog (processTaskCreatedLog agg0
        { taskIndex := 5, task := taskA }).1
        { taskIndex := 5, task := taskB }).1.tasks 5 = some taskB ∧
    goLookup (processTaskCreatedLog (processTaskCreatedLog agg0
        { taskIndex := 5, task := taskA }).1
        { taskIndex := 5, task := taskB }).1.tasks 5 ≠ some taskA ∧
    taskB ≠ taskA := by
  decide

/-- Claim C1, amended: processing a duplicate task-created event for an
already-registered index overwrites the stored payload (last write wins:
the registry afterwards returns the duplicate event's task), and the
duplicate is reported rather than silently accepted — `InitializeNewTask`
returns the duplicate-index error, which the dispatch loop logs. -/
theorem c1_duplicate_last_write_wins (agg : AggState)
    (log1 log2 : NewTaskCreatedLog)
    (hidx : log2.taskIndex = log1.taskIndex)
    (hok : (processTaskCreatedLog agg log1).2.2 = none) :
    goLookup (processTaskCreatedLog (processTaskCreatedLog agg log1).1
        log2).1.tasks log1.taskIndex = some log2.task ∧
    (processTaskCreatedLog (processTaskCreatedLog agg log1).1 log2).2.2 =
      some GoError.taskAlreadyTracked := by
  constructor
  · simp only [processTaskCreatedLog]
    rw [← hidx]
    exact goLookup_goInsert_self _ _ _
  · simp only [processTaskCreatedLog] at hok ⊢
    rw [initNewTask_none_tracked _ _ hok]
    apply initNewTask_mem
    simp [hidx]

/-- Witness for `c1_duplicate_last_write_wins` at the concrete duplicate
pair of `c1_duplicate_overwrites_cex`. -/
theorem c1_duplicate_last_write_wins_witness :
    goLookup (processTaskCreatedLog (processTaskCreatedLog agg0
        { taskIndex := 5, task := taskA }).1
        { taskIndex := 5, task := taskB }).1.tasks
        (NewTaskCreatedLog.taskIndex { taskIndex := 5, task := taskA }) =
      some taskB ∧
    (processTaskCreatedLog (processTaskCreatedLog agg0
        { taskIndex := 5, task := taskA }).1
        { taskIndex := 5, task := taskB }).2.2 =
      some GoError.taskAlreadyTracked :=
  c1_duplicate_last_write_wins agg0 { taskIndex := 5, task := taskA }
    { taskIndex := 5, task := taskB } (by decide) (by decide)

/-- Shape of the submission path on a successful aggregation result:
exactly one `SendAggregatedResponse` call, built from the registry reads,
with a trailing error log exactly when the chain writer fails; no
panic. -/
theorem sendOk_shape (w : SubmitWriter) (agg : AggState)
    (resp : BlsAggServiceResp) (hok : resp.err = none) :
    sendAggregatedResponseToContract w agg resp =
      ([Action.logInfo, Action.submitAggregate (submittedCall agg resp)] ++
        (if (w (submittedCall agg resp)).isSome then [Action.logError]
         else []), none) := by
  rcases hw : w (submittedCall agg resp) with _ | e <;>
    simp only [submittedCall] at hw <;>
    simp [sendAggregatedResponseToContract, submittedCall, hok, hw]

/-- Claim C2, counterexample: with an empty registry (task index 0 absent
from both maps) a finalized successful result for task 0 still issues a
`SendAggregatedResponse` call — the submission path does not check
presence, so "no submission call is issued" fails; no crash occurs. -/
theorem c2_absent_task_still_submits_cex :
    goLookup agg0.tasks 0 = none ∧
    goLookup agg0.taskResponses 0 = none ∧
    countSubmits (sendAggregatedResponseToContract w0 agg0 respOk).1 = 1 ∧
    (sendAggregatedResponseToContract w0 agg0 respOk).2 = none := by
  decide

/-- Claim C2, amended: for a finalized successful result the pipeline
submits exactly the task read from the registry under `T` and the response
read under `(T, D)` in Go value position — the stored values when present,
the zero values when absent — and in either case exactly one
`SubmitAggregate` call is issued and the orchestrator does not crash (no
panic; the loop keeps running). -/
theorem c2_submission_uses_registry_reads (w : SubmitWriter)
    (agg : AggState) (resp : BlsAggServiceResp) (hok : resp.err = none) :
    (submittedCall agg resp).task =
      (goLookup agg.tasks resp.taskIndex).getD zeroTask ∧
    (submittedCall agg resp).taskResponse =
      (goLookup ((goLookup agg.taskResponses resp.taskIndex).getD [])
        resp.taskResponseDigest).getD zeroTaskResponse ∧
    (sendAggregatedResponseToContract w agg resp).1 =
      [Action.logInfo, Action.submitAggregate (submittedCall agg resp)] ++
        (if (w (submittedCall agg resp)).isSome then [Action.logError]
         else []) ∧
    countSubmits (sendAggregatedResponseToContract w agg resp).1 = 1 ∧
    (sendAggregatedResponseToContract w agg resp).2 = none ∧
    (loopStep w agg (LoopEvent.blsResp resp)).2.2 = LoopOutcome.running := by
  have hcall := sendOk_shape w agg resp hok
  refine ⟨rfl, rfl, ?_, ?_, ?_, ?_⟩
  · rw [hcall]
  · rw [hcall]
    rcases w (submittedCall agg resp) with _ | e <;> simp [countSubmits]
  · rw [hcall]
  · simp [loopStep, hcall]

/-- Witness for `c2_submission_uses_registry_reads` at the empty registry
and the successful concrete result. -/
theorem c2_submission_uses_registry_reads_witness :
    (submittedCall agg0 respOk).task =
      (goLookup agg0.tasks respOk.taskIndex).getD zeroTask ∧
    (submittedCall agg0 respOk).taskResponse =
      (goLookup ((goLookup agg0.taskResponses respOk.taskIndex).getD [])
        respOk.taskResponseDigest).getD zeroTaskResponse ∧
    (sendAggregatedResponseToContract w0 agg0 respOk).1 =
      [Action.logInfo, Action.submitAggregate (submittedCall agg0 respOk)] ++
        (if (w0 (submittedCall agg0 respOk)).isSome then [Action.logError]
         else []) ∧
    countSubmits (sendAggregatedResponseToContract w0 agg0 respOk).1 = 1 ∧
    (sendAggregatedResponseToContract w0 agg0 respOk).2 = none ∧
    (loopStep w0 agg0 (LoopEvent.blsResp respOk)).2.2 =
      LoopOutcome.running :=
  c2_submission_uses_registry_reads w0 agg0 respOk (by decide)

/-- Claim C3: an aggregation completion carrying an error (such as expiry
with no quorum) is surfaced as a fatal condition exactly once — the loop
logs it and halts right there with a panic carrying that error, processing
no further events — and no `SubmitAggregate` call is issued for that
result. -/
theorem c3_aggregation_error_fatal_no_submission (w : SubmitWriter)
    (agg : AggState) (resp : BlsAggServiceResp) (e : GoError)
    (rest : List LoopEvent) (herr : resp.err = some e) :
    runLoop w agg (LoopEvent.blsResp resp :: rest) =
      ([Action.logInfo, Action.logError], agg, LoopOutcome.panicked e) ∧
    countSubmits (runLoop w agg (LoopEvent.blsResp resp :: rest)).1 = 0 := by
  have hsend : sendAggregatedResponseToContract w agg resp =
      ([Action.logError], some e) := by
    simp [sendAggregatedResponseToContract, herr]
  constructor <;> simp [runLoop, loopStep, hsend, countSubmits]

/-- Witness for `c3_aggregation_error_fatal_no_submission` at the expired
concrete result. -/
theorem c3_aggregation_error_fatal_no_submission_witness :
    runLoop w0 agg0 [LoopEvent.blsResp respErr] =
      ([Action.logInfo, Action.logError], agg0,
        LoopOutcome.panicked GoError.taskExpired) ∧
    countSubmits (runLoop w0 agg0 [LoopEvent.blsResp respErr]).1 = 0 :=
  c3_aggregation_error_fatal_no_submission w0 agg0 respErr
    GoError.taskExpired [] (by decide)

/-- Claim C4: processing a task-created event calls `InitializeNewTask`
with the task's quorum numbers in their order of appearance and with
exactly one threshold per quorum number (equal lengths); in particular the
task with quorum numbers `[0, 1]` and per-quorum thresholds `[67, 67]`
(scalar threshold 67) initializes the session with exactly those pairs in
that order. -/
theorem c4_init_quorums_in_order (agg : AggState)
    (taskLog : NewTaskCreatedLog) :
    (processTaskCreatedLog agg taskLog).2.1.quorumNumbers =
      taskLog.task.quorumNumbers ∧
    (processTaskCreatedLog agg taskLog).2.1.quorumThresholdPercentages.length
      = (processTaskCreatedLog agg taskLog).2.1.quorumNumbers.length ∧
    (processTaskCreatedLog agg
        { taskIndex := 5, task := taskA }).2.1.quorumNumbers = [0, 1] ∧
    (processTaskCreatedLog agg
        { taskIndex := 5, task := taskA }).2.1.quorumThresholdPercentages =
      [67, 67] := by
  refine ⟨?_, ?_, ?_, ?_⟩ <;> simp [processTaskCreatedLog, taskA]

/-- Claim C5: the time-to-expiry passed to `InitializeNewTask` is the
constant `taskChallengeWindowBlock * blockTimeSeconds`, which equals
100 × 12 seconds = 1200 seconds, independent of the task's creation block
height. -/
theorem c5_expiry_is_constant (agg : AggState)
    (taskLog : NewTaskCreatedLog) (b : Nat) :
    (processTaskCreatedLog agg taskLog).2.1.timeToExpiry =
      taskChallengeWindowBlock * blockTimeSeconds ∧
    taskChallengeWindowBlock * blockTimeSeconds = 1200 * second ∧
    (processTaskCreatedLog agg
        { taskLog with
          task := { taskLog.task with taskCreatedBlock := b } }).2.1.timeToExpiry
      = (processTaskCreatedLog agg taskLog).2.1.timeToExpiry := by
  refine ⟨rfl, ?_, rfl⟩
  show 100 * (12 * second) = 1200 * second
  ring

/-- Claim C6: the dispatch loop returns from `Start` only upon external
cancellation — and then it returns `nil`, which `LoopOutcome.returnedNil`
models — while an error from processing a task-created event is logged and
leaves the loop running, never propagating out of the loop. -/
theorem c6_loop_returns_only_on_cancel (w : SubmitWriter) (agg : AggState)
    (evs : List LoopEvent) (taskLog : NewTaskCreatedLog)
    (hret : (runLoop w agg evs).2.2 = LoopOutcome.returnedNil)
    (herr : ((processTaskCreatedLog agg taskLog).2.2).isSome = true) :
    LoopEvent.cancel ∈ evs ∧
    (loopStep w agg (LoopEvent.newTaskCreated taskLog)).2.2 =
      LoopOutcome.running ∧
    Action.logError ∈ (loopStep w agg (LoopEvent.newTaskCreated taskLog)).1
    := by
  refine ⟨runLoop_returnedNil_mem w evs agg hret,
    loopStep_newTaskCreated_running w agg taskLog, ?_⟩
  rcases hE : (processTaskCreatedLog agg taskLog).2.2 with _ | e
  · rw [hE] at herr
    simp at herr
  · simp [loopStep, hE]

/-- Witness for `c6_loop_returns_only_on_cancel`: a run consisting of the
cancellation event alone returns, and the duplicate-index error for task 5
on a state already tracking index 5 is logged while the loop keeps
running. -/
theorem c6_loop_returns_only_on_cancel_witness :
    LoopEvent.cancel ∈ [LoopEvent.cancel] ∧
    (loopStep w0 aggTracked5
      (LoopEvent.newTaskCreated { taskIndex := 5, task := taskA })).2.2 =
      LoopOutcome.running ∧
    Action.logError ∈ (loopStep w0 aggTracked5
      (LoopEvent.newTaskCreated { taskIndex := 5, task := taskA })).1 :=
  c6_loop_returns_only_on_cancel w0 aggTracked5 [LoopEvent.cancel]
    { taskIndex := 5, task := taskA } (by decide) (by decide)

/-- Unfolding a run of the dispatch loop one event at a time, when the
first pass leaves the loop running. -/
theorem runLoop_cons_running (w : SubmitWriter) (agg : AggState)
    (ev : LoopEvent) (rest : List LoopEvent)
    (h : (loopStep w agg ev).2.2 = LoopOutcome.running) :
    runLoop w agg (ev :: rest) =
      ((loopStep w agg ev).1 ++ (runLoop w (loopStep w agg ev).2.1 rest).1,
        (runLoop w (loopStep w agg ev).2.1 rest).2) := by
  simp only [runLoop]
  rw [h]

/-- `processTaskCreatedLog` reads only the `tasks` map and the tracked
indices of the aggregation service: states agreeing on those agree on the
resulting map, tracked set, call and error. -/
theorem processTaskCreatedLog_depends (agg1 agg2 : AggState)
    (h1 : agg1.tasks = agg2.tasks) (h2 : agg1.blsTracked = agg2.blsTracked)
    (taskLog : NewTaskCreatedLog) :
    (processTaskCreatedLog agg1 taskLog).2 =
      (processTaskCreatedLog agg2 taskLog).2 ∧
    (processTaskCreatedLog agg1 taskLog).1.tasks =
      (processTaskCreatedLog agg2 taskLog).1.tasks ∧
    (processTaskCreatedLog agg1 taskLog).1.blsTracked =
      (processTaskCreatedLog agg2 taskLog).1.blsTracked := by
  simp [processTaskCreatedLog, h1, h2]

/-- Processing a task-created event from two states agreeing on the
`tasks` map and the tracked indices produces the same actions and the same
resulting `tasks` map. -/
theorem loopStep_newTaskCreated_congr (w : SubmitWriter)
    (agg1 agg2 : AggState) (h1 : agg1.tasks = agg2.tasks)
    (h2 : agg1.blsTracked = agg2.blsTracked)
    (taskLog : NewTaskCreatedLog) :
    (loopStep w agg1 (LoopEvent.newTaskCreated taskLog)).1 =
      (loopStep w agg2 (LoopEvent.newTaskCreated taskLog)).1 ∧
    (loopStep w agg1 (LoopEvent.newTaskCreated taskLog)).2.1.tasks =
      (loopStep w agg2 (LoopEvent.newTaskCreated taskLog)).2.1.tasks := by
  obtain ⟨hp2, hpt, hpb⟩ := processTaskCreatedLog_depends agg1 agg2 h1 h2 taskLog
  have hE : (processTaskCreatedLog agg1 taskLog).2.2 =
      (processTaskCreatedLog agg2 taskLog).2.2 := by rw [hp2]
  rcases h2E : (processTaskCreatedLog agg2 taskLog).2.2 with _ | e <;>
    rw [h2E] at hE <;> simp [loopStep, hE, h2E, hpt]

/-- Claim C7: on a subscription error for either channel — task-created
or task-responded — the dispatch loop logs the error, discards the broken
subscription handle (`Unsubscribe`), and immediately re-subscribes to the
same channel target (`agg.newTaskCreatedChan`, respectively
`agg.newTaskRespondedChan`), leaving the registries untouched; a
subsequent valid event on the re-subscribed channel is then processed
exactly as it would have been without the failure (same actions, same
resulting registries). -/
theorem c7_resubscribe_and_resume (w : SubmitWriter) (agg : AggState)
    (e : GoError) (taskLog : NewTaskCreatedLog)
    (respLog : TaskRespondedLog) :
    (loopStep w agg (LoopEvent.subTaskCreatedErr e)).1 =
      [Action.logError, Action.unsubscribe agg.subTaskCreated.handle,
        Action.subscribe agg.newTaskCreatedChan] ∧
    (loopStep w agg (LoopEvent.subTaskCreatedErr e)).2.2 =
      LoopOutcome.running ∧
    ((loopStep w agg (LoopEvent.subTaskCreatedErr e)).2.1).subTaskCreated.target
      = agg.newTaskCreatedChan ∧
    ((loopStep w agg (LoopEvent.subTaskCreatedErr e)).2.1).tasks = agg.tasks ∧
    ((loopStep w agg (LoopEvent.subTaskCreatedErr e)).2.1).taskResponses =
      agg.taskResponses ∧
    ((loopStep w agg (LoopEvent.subTaskCreatedErr e)).2.1).blsTracked =
      agg.blsTracked ∧
    (runLoop w agg [LoopEvent.subTaskCreatedErr e,
        LoopEvent.newTaskCreated taskLog]).2.1.tasks =
      (runLoop w agg [LoopEvent.newTaskCreated taskLog]).2.1.tasks ∧
    (runLoop w agg [LoopEvent.subTaskCreatedErr e,
        LoopEvent.newTaskCreated taskLog]).1 =
      (loopStep w agg (LoopEvent.subTaskCreatedErr e)).1 ++
        (runLoop w agg [LoopEvent.newTaskCreated taskLog]).1 ∧
    (loopStep w agg (LoopEvent.subTaskRespondedErr e)).1 =
      [Action.logError, Action.unsubscribe agg.subTaskResponded.handle,
        Action.subscribe agg.newTaskRespondedChan] ∧
    (loopStep w agg (LoopEvent.subTaskRespondedErr e)).2.2 =
      LoopOutcome.running ∧
    ((loopStep w agg (LoopEvent.subTaskRespondedErr e)).2.1).subTaskResponded.target
      = agg.newTaskRespondedChan ∧
    ((loopStep w agg (LoopEvent.subTaskRespondedErr e)).2.1).tasks =
      agg.tasks ∧
    ((loopStep w agg (LoopEvent.subTaskRespondedErr e)).2.1).taskResponses =
      agg.taskResponses ∧
    ((loopStep w agg (LoopEvent.subTaskRespondedErr e)).2.1).blsTracked =
      agg.blsTracked ∧
    (runLoop w agg [LoopEvent.subTaskRespondedErr e,
        LoopEvent.taskResponded respLog]).2.1.tasks =
      (runLoop w agg [LoopEvent.taskResponded respLog]).2.1.tasks ∧
    (runLoop w agg [LoopEvent.subTaskRespondedErr e,
        LoopEvent.taskResponded respLog]).2.1.taskResponses =
      (runLoop w agg [LoopEvent.taskResponded respLog]).2.1.taskResponses ∧
    (runLoop w agg [LoopEvent.subTaskRespondedErr e,
        LoopEvent.taskResponded respLog]).1 =
      (loopStep w agg (LoopEvent.subTaskRespondedErr e)).1 ++
        (runLoop w agg [LoopEvent.taskResponded respLog]).1 := by
  have hagg1 : (loopStep w agg (LoopEvent.subTaskCreatedErr e)).2.1 =
      { agg with
        subTaskCreated :=
          { handle := agg.nextSubHandle, target := agg.newTaskCreatedChan }
        nextSubHandle := agg.nextSubHandle + 1 } := rfl
  obtain ⟨hacts, htasks⟩ := loopStep_newTaskCreated_congr w
    (loopStep w agg (LoopEvent.subTaskCreatedErr e)).2.1 agg rfl rfl taskLog
  have hr1 : (loopStep w (loopStep w agg (LoopEvent.subTaskCreatedErr e)).2.1
      (LoopEvent.newTaskCreated taskLog)).2.2 = LoopOutcome.running :=
    loopStep_newTaskCreated_running w _ taskLog
  have hr2 : (loopStep w agg (LoopEvent.newTaskCreated taskLog)).2.2 =
      LoopOutcome.running := loopStep_newTaskCreated_running w agg taskLog
  refine ⟨rfl, rfl, rfl, rfl, rfl, rfl, ?_, ?_, rfl, rfl, rfl, rfl, rfl,
      rfl, rfl, rfl, rfl⟩ <;>
    rw [runLoop_cons_running w agg (LoopEvent.subTaskCreatedErr e)
        [LoopEvent.newTaskCreated taskLog] rfl,
      runLoop_cons_running w _ (LoopEvent.newTaskCreated taskLog) [] hr1,
      runLoop_cons_running w agg (LoopEvent.newTaskCreated taskLog) [] hr2] <;>
    simp only [runLoop] <;>
    simp [hacts, htasks]

/-- Claim C8: a finalized successful aggregation result leads to exactly
one on-chain submission attempt; a submission error only adds an error
log — no retry, the submission count stays one — and the aggregator state,
including both registry maps, is left entirely in place. -/
theorem c8_single_submission_no_retry (w : SubmitWriter) (agg : AggState)
    (resp : BlsAggServiceResp) (hok : resp.err = none) :
    countSubmits (loopStep w agg (LoopEvent.blsResp resp)).1 = 1 ∧
    (loopStep w agg (LoopEvent.blsResp resp)).2.1 = agg ∧
    (loopStep w agg (LoopEvent.blsResp resp)).2.2 = LoopOutcome.running ∧
    (sendAggregatedResponseToContract w agg resp).1 =
      [Action.logInfo, Action.submitAggregate (submittedCall agg resp)] ++
        (if (w (submittedCall agg resp)).isSome then [Action.logError]
         else []) := by
  have hcall := sendOk_shape w agg resp hok
  refine ⟨?_, ?_, ?_, ?_⟩
  · rcases hw2 : w (submittedCall agg resp) with _ | e2 <;>
      simp [loopStep, hcall, countSubmits, hw2]
  · simp [loopStep, hcall]
  · simp [loopStep, hcall]
  · rw [hcall]

/-- Witness for `c8_single_submission_no_retry` with a failing chain
writer: the error is logged, the count of attempts is still one, and the
state is untouched. -/
theorem c8_single_submission_no_retry_witness :
    countSubmits (loopStep wFail agg0 (LoopEvent.blsResp respOk)).1 = 1 ∧
    (loopStep wFail agg0 (LoopEvent.blsResp respOk)).2.1 = agg0 ∧
    (loopStep wFail agg0 (LoopEvent.blsResp respOk)).2.2 =
      LoopOutcome.running ∧
    (sendAggregatedResponseToContract wFail agg0 respOk).1 =
      [Action.logInfo, Action.submitAggregate (submittedCall agg0 respOk)] ++
        (if (wFail (submittedCall agg0 respOk)).isSome then [Action.logError]
         else []) :=
  c8_single_submission_no_retry wFail agg0 respOk (by decide)

/-- Claim C9: processing a task-responded event only logs: the whole
aggregator state — `tasks`, `taskResponses` and every other field — is
identical before and after, no error is produced, and the loop keeps
running. -/
theorem c9_task_responded_no_mutation (w : SubmitWriter) (agg : AggState)
    (taskLog : TaskRespondedLog) :
    loopStep w agg (LoopEvent.taskResponded taskLog) =
      ([Action.logInfo], agg, LoopOutcome.running) := rfl

/-- Claim C10: the per-quorum thresholds passed to `InitializeNewTask` are
the task's single scalar `QuorumThresholdPercentage` replicated once per
quorum number, so distinct quorums of one task can never receive distinct
thresholds. -/
theorem c10_thresholds_replicate_scalar (agg : AggState)
    (taskLog : NewTaskCreatedLog) :
    (processTaskCreatedLog agg taskLog).2.1.quorumThresholdPercentages =
      List.replicate taskLog.task.quorumNumbers.length
        taskLog.task.quorumThresholdPercentage := by
  simp only [processTaskCreatedLog]
  exact map_const_replicate _ _

end BlocklessAvs
